import Mathlib

/-!
Shallow embedding of `pylibfreenect2/libfreenect2.pyx`, the Cython binding
over the native libfreenect2 driver.  Python exceptions are modelled by an
explicit error type returned through `Except`; native pointers are modelled
as `Option Nat` (with `none` for `NULL`); the native driver's side effects
are modelled by explicit records of the forwarded call, so that "this path
never reaches the native primitive" is expressible as the absence of such a
record in the result.
-/

namespace PyLibFreenect2

/-- Python exceptions raised by the binding code itself. -/
inductive PyErr where
  | valueError (msg : String)
  | keyError (msg : String)
  | assertionError
  deriving DecidableEq, Repr

/-- The three frame channels of the `FrameType` IntEnum.

Modelled from the spec: the `FrameType` enum itself lives in the package's
`__init__.py`, which is not part of this source set; the spec describes it as
a flag enum over the three channels (`Color`, `Ir`, `Depth`) whose raw integer
flag values can be OR-ed together, matching the native
`libfreenect2::Frame::Type` flags 1, 2, 4. -/
inductive FrameTypeE where
  | Color
  | Ir
  | Depth
  deriving DecidableEq, Repr

/-- Raw integer flag value of a `FrameType` member (it is an IntEnum). -/
def FrameTypeE.toInt : FrameTypeE → Int
  | .Color => 1
  | .Ir => 2
  | .Depth => 4

/-- Canonical lowercase string key of a channel. -/
def FrameTypeE.canonicalStr : FrameTypeE → String
  | .Color => "color"
  | .Ir => "ir"
  | .Depth => "depth"


/-- The native `libfreenect2::Frame::Type` enum used as the key type of the
native frame map (`LibFreenect2FrameType` in the .pyx externs). -/
inductive LibFreenect2FrameType where
  | Color
  | Ir
  | Depth
  deriving DecidableEq, Repr

/-- The native frame type corresponding to a `FrameType` channel. -/
def FrameTypeE.toNative : FrameTypeE → LibFreenect2FrameType
  | .Color => .Color
  | .Ir => .Ir
  | .Depth => .Depth

/-- `intenum_to_frame_type(int n)`: maps a Python int/IntEnum value to the
native frame type, raising `ValueError("Not supported")` otherwise. -/
def intenum_to_frame_type (n : Int) : Except PyErr LibFreenect2FrameType :=
  if n = FrameTypeE.Color.toInt then .ok .Color
  else if n = FrameTypeE.Ir.toInt then .ok .Ir
  else if n = FrameTypeE.Depth.toInt then .ok .Depth
  else .error (.valueError "Not supported")

/-- Python's `str.lower()` on the key strings the binding compares against
(character-wise ASCII lowering; the canonical keys are pure ASCII). -/
def pyLower (s : String) : String :=
  ⟨s.data.map Char.toLower⟩

/-- `str_to_int_frame_type(str s)`: lowercases the key and maps the canonical
channel names to the IntEnum value, raising `ValueError` otherwise. -/
def str_to_int_frame_type (s : String) : Except PyErr Int :=
  let s := pyLower s
  if s = "color" then .ok FrameTypeE.Color.toInt
  else if s = "ir" then .ok FrameTypeE.Ir.toInt
  else if s = "depth" then .ok FrameTypeE.Depth.toInt
  else .error (.valueError "Not supported")

/-- `str_to_frame_type(str s)`: composition of the two conversions above. -/
def str_to_frame_type (s : String) : Except PyErr LibFreenect2FrameType :=
  str_to_int_frame_type s >>= intenum_to_frame_type

/-- The Python `Frame` extension class: a native frame pointer (`none` =
`NULL`), the internally-set `take_ownership` flag, and the stored
`frame_type` (an arbitrary Python int, `-1` meaning unset). -/
structure Frame where
  ptr : Option Nat
  take_ownership : Bool
  frame_type : Int
  deriving DecidableEq, Repr

/-- `Frame.__cinit__(width, height, bytes_per_pixel, frame_type)`.

The three dimension arguments are optional (`Option Nat`); the body asserts
that all are given or all omitted, then allocates a native frame iff all are
given.  Allocation of a native frame is made observable by threading an
allocation counter: `newPtr` is the address the allocator would return, and
the second component of the result is the updated allocation count. -/
def Frame.cinit (width height bytes_per_pixel : Option Nat) (frame_type : Int)
    (newPtr : Nat) (allocCount : Nat) : Except PyErr Frame × Nat :=
  let all_none := width.isNone && height.isNone && bytes_per_pixel.isNone
  let all_not_none := width.isSome && height.isSome && bytes_per_pixel.isSome
  if all_none || all_not_none then
    if all_not_none then
      (.ok { ptr := some newPtr, take_ownership := true, frame_type := frame_type },
       allocCount + 1)
    else
      (.ok { ptr := none, take_ownership := false, frame_type := frame_type },
       allocCount)
  else
    (.error .assertionError, allocCount)

/-- `Frame.__dealloc__`: frees the native frame iff `take_ownership` is set
and the pointer is non-NULL.  Returns how many native frees the destructor
performs (0 or 1). -/
def Frame.deallocFrees (f : Frame) : Nat :=
  if f.take_ownership && f.ptr.isSome then 1 else 0

/-- Non-destructor operations available on a live `Frame` object (array
conversions and the read-only metadata properties).  None of them touches
the allocator. -/
inductive FrameOp where
  | astypeOp
  | asarrayOp
  | propertyRead
  deriving DecidableEq, Repr

/-- Number of native frees performed by one non-destructor operation:
always zero — only `__dealloc__` can free. -/
def FrameOp.frees : FrameOp → Nat := fun _ => 0

/-- Total number of native frees over a whole object lifetime: any sequence
of live operations followed by the single `__dealloc__` the runtime runs. -/
def Frame.lifecycleFrees (f : Frame) (ops : List FrameOp) : Nat :=
  (ops.map FrameOp.frees).sum + f.deallocFrees

/-- The fields of the dereferenced native `libfreenect2::Frame` that the
array conversions read. -/
structure NativeFrame where
  width : Nat
  height : Nat
  bytes_per_pixel : Nat
  dataAddr : Nat
  deriving DecidableEq, Repr

/-- NumPy dtypes distinguishable by `Frame.astype`'s checks. -/
inductive DType where
  | uint8
  | float32
  | otherType (name : String)
  deriving DecidableEq, Repr

/-- A NumPy array view as produced by `PyArray_SimpleNewFromData`: its
dimensionality, shape, element dtype, and the wrapped data address. -/
structure NdArray where
  ndim : Nat
  shape : List Nat
  dtype : DType
  dataAddr : Nat
  deriving DecidableEq, Repr

/-- `Frame.__uint8_data`: a 3-d uint8 view of shape
`(height, width, 4)` over `self.ptr.data`.  `nf` is the dereferenced
native frame `self.ptr` points to. -/
def Frame.uint8_data (_ : Frame) (nf : NativeFrame) : NdArray :=
  { ndim := 3, shape := [nf.height, nf.width, 4],
    dtype := .uint8, dataAddr := nf.dataAddr }

/-- `Frame.__float32_data`: a 2-d float32 view of shape `(height, width)`
over `self.ptr.data`. -/
def Frame.float32_data (_ : Frame) (nf : NativeFrame) : NdArray :=
  { ndim := 2, shape := [nf.height, nf.width],
    dtype := .float32, dataAddr := nf.dataAddr }

/-- `Frame.astype(data_type)`: rejects everything but `np.uint8` and
`np.float32` with a `ValueError`, then dispatches to the matching view. -/
def Frame.astype (f : Frame) (nf : NativeFrame) (data_type : DType) :
    Except PyErr NdArray :=
  if data_type ≠ .uint8 ∧ data_type ≠ .float32 then
    .error (.valueError "np.uint8 or np.float32 is only supported")
  else if data_type = .uint8 then
    .ok (f.uint8_data nf)
  else
    .ok (f.float32_data nf)

/-- `Frame.asarray()`: raises `ValueError` when `frame_type < 0`, dispatches
on the stored frame type, and hits `assert False` on any other stored
value. -/
def Frame.asarray (f : Frame) (nf : NativeFrame) : Except PyErr NdArray :=
  if f.frame_type < 0 then
    .error (.valueError "Cannnot determine type of raw data. Use astype instead.")
  else if f.frame_type = FrameTypeE.Color.toInt then
    f.astype nf .uint8
  else if f.frame_type = FrameTypeE.Ir.toInt ∨ f.frame_type = FrameTypeE.Depth.toInt then
    f.astype nf .float32
  else
    .error .assertionError

/-- The internal `std::map<libfreenect2::Frame::Type, libfreenect2::Frame*>`
of a `FrameMap`, read through `operator[]`: a missing key and a key mapped
to `NULL` both read as `none` (`operator[]` default-inserts `NULL` for a
missing key). -/
def FrameMapState := LibFreenect2FrameType → Option Nat

/-- A Python key passed to `FrameMap.__getitem__`: an int (which also covers
`FrameType` members, since `FrameType` is an IntEnum), a str, or a value of
any other type. -/
inductive PyKey where
  | intKey (n : Int)
  | strKey (s : String)
  | otherKey
  deriving DecidableEq, Repr

/-- `FrameMap.__getitem__(key)`: normalizes the key to the native frame type
(raising for unrecognized keys), indexes the internal map with `operator[]`,
and wraps the resulting pointer in a new borrowed `Frame` carrying the
IntEnum value as its `frame_type`. -/
def FrameMapState.getitem (m : FrameMapState) (key : PyKey) : Except PyErr Frame :=
  match key with
  | .intKey n => do
      let ft ← intenum_to_frame_type n
      .ok { ptr := m ft, take_ownership := false, frame_type := n }
  | .strKey s => do
      let ft ← str_to_frame_type s
      let intkey ← str_to_int_frame_type s
      .ok { ptr := m ft, take_ownership := false, frame_type := intkey }
  | .otherKey => .error (.keyError "")

/-- Modelled from the spec: the native
`SyncMultiFrameListener::release(FrameMap&)`, to which the binding's
`SyncMultiFrameListener.release` forwards, is not part of this source set.
The spec states that release invalidates every entry ("after `release`, all
entries are invalid"), i.e. each entry pointer is reclaimed and nulled. -/
def nativeRelease (_ : FrameMapState) : FrameMapState := fun _ => none

/-- `SyncMultiFrameListener.release(frame_map)`: forwards the internal map
to the native release. -/
def SyncMultiFrameListener.release (m : FrameMapState) : FrameMapState :=
  nativeRelease m

/-- The record of one invocation of the native
`libfreenect2::Registration::apply` (the arguments forwarded to it).  Such a
record exists only when the binding actually reaches the native call. -/
structure NativeApplyCall where
  rgbPtr : Option Nat
  depthPtr : Option Nat
  undistoredPtr : Option Nat
  registeredPtr : Option Nat
  enable_filter : Bool
  bigdepthPtr : Option Nat
  deriving DecidableEq, Repr

/-- `Registration.apply(rgb, depth, undistored, registered, enable_filter,
bigdepth)`: five `assert` statements check the ownership tags before
anything else runs; only when all pass is the native registration primitive
invoked, with `NULL` for an omitted bigdepth.  An `ok` result is the record
of that native call; an `error` result means the native primitive was never
reached and no output buffer was written. -/
def Registration.apply (rgb depth undistored registered : Frame)
    (enable_filter : Bool) (bigdepth : Option Frame) :
    Except PyErr NativeApplyCall :=
  if rgb.take_ownership = false then
    if depth.take_ownership = false then
      if undistored.take_ownership = true then
        if registered.take_ownership = true then
          if (match bigdepth with
              | none => true
              | some b => b.take_ownership) = true then
            .ok { rgbPtr := rgb.ptr, depthPtr := depth.ptr,
                  undistoredPtr := undistored.ptr,
                  registeredPtr := registered.ptr,
                  enable_filter := enable_filter,
                  bigdepthPtr := match bigdepth with
                    | none => none
                    | some b => b.ptr }
          else .error .assertionError
        else .error .assertionError
      else .error .assertionError
    else .error .assertionError
  else .error .assertionError

/-- The Python `Freenect2Device` extension class: it holds exactly one field,
the native device pointer — no lifecycle state of any kind. -/
structure Freenect2Device where
  ptr : Nat
  deriving DecidableEq, Repr

/-- The methods of `Freenect2Device`. -/
inductive DeviceOp where
  | getSerialNumber
  | getFirmwareVersion
  | getColorCameraParams
  | getIrCameraParams
  | setColorFrameListener
  | setIrAndDepthFrameListener
  | startOp
  | stopOp
  | closeOp
  deriving DecidableEq, Repr

/-- The record of one call forwarded to the native
`libfreenect2::Freenect2Device*`. -/
structure ForwardedCall where
  devicePtr : Nat
  op : DeviceOp
  deriving DecidableEq, Repr

/-- Errors the spec's DeviceHandle lifecycle contract names. -/
inductive DeviceError where
  | StateError
  | UseAfterCloseError
  deriving DecidableEq, Repr

/-- One `Freenect2Device` method call as the binding implements it: every
method body is a single unconditional forward `self.ptr.<method>(...)` to
the native device — there is no state check and no error path. -/
def Freenect2Device.callMethod (d : Freenect2Device) (op : DeviceOp) :
    Except DeviceError ForwardedCall :=
  .ok { devicePtr := d.ptr, op := op }

/-- Running a sequence of method calls on a device: each call is independent
of the history, since the class carries no lifecycle state. -/
def Freenect2Device.runOps (d : Freenect2Device) (ops : List DeviceOp) :
    List (Except DeviceError ForwardedCall) :=
  ops.map d.callMethod

/-- The Python `PacketPipeline` base class state as `CpuPacketPipeline`
instantiates it: the native pipeline pointer (`none` = `NULL`) and the
`owned_by_device` flag. -/
structure PacketPipeline where
  pipeline : Option Nat
  owned_by_device : Bool
  deriving DecidableEq, Repr

/-- `CpuPacketPipeline.__cinit__`: allocates a native pipeline at `addr` and
starts with `owned_by_device = False`. -/
def CpuPacketPipeline.cinit (addr : Nat) : PacketPipeline :=
  { pipeline := some addr, owned_by_device := false }

/-- `CpuPacketPipeline.__dealloc__`: deletes the native pipeline only when
`owned_by_device` is unset and the pointer is non-NULL.  Returns the freed
address, or `none` when nothing is freed. -/
def CpuPacketPipeline.deallocFrees (p : PacketPipeline) : Option Nat :=
  if p.owned_by_device then none
  else p.pipeline

/-- `Freenect2.__openDevice__intidx(idx, pipeline)` (and identically
`__openDevice__stridx` and `openDefaultDevice`): opens the native device at
`dev_ptr`; when a pipeline is supplied it is forwarded to the native open
call and its `owned_by_device` flag is set.  The result pairs the new
`Freenect2Device` with the pipeline object's updated state. -/
def Freenect2.openDeviceWith (pipeline : Option PacketPipeline)
    (dev_ptr : Nat) : Freenect2Device × Option PacketPipeline :=
  match pipeline with
  | none => ({ ptr := dev_ptr }, none)
  | some p => ({ ptr := dev_ptr }, some { p with owned_by_device := true })

/-- Modelled from the spec: the destructor of the native
`Freenect2DeviceImpl` is not part of this source set; the binding's comment
and the spec state that once a device is opened with a pipeline, the native
pipeline is released exactly once by the device's destructor.  Returns the
address freed by the device teardown. -/
def deviceDestructorFrees (transferredPipeline : Option Nat) : Option Nat :=
  transferredPipeline

/-- Number of times a given native address is freed by one `Option`-valued
free action. -/
def freesAt (freed : Option Nat) (addr : Nat) : Nat :=
  if freed = some addr then 1 else 0

/-! Theorems. -/

/-- Non-destructor frame operations perform no native frees. -/
lemma sum_frameOp_frees (ops : List FrameOp) : (ops.map FrameOp.frees).sum = 0 := by
  induction ops with
  | nil => rfl
  | cons op rest ih => simp [FrameOp.frees, ih]

/-- C1 counterexample: on the device at native address 0, calling
`setColorFrameListener` right after `start()` yields a forwarded native
call, not `StateError`; calling `getSerialNumber` right after `close()`
yields a forwarded native call, not `UseAfterCloseError`.  The claim that
these calls fail is false. -/
theorem C1_counterexample :
    Freenect2Device.runOps { ptr := 0 } [.startOp, .setColorFrameListener] =
      [.ok { devicePtr := 0, op := .startOp },
       .ok { devicePtr := 0, op := .setColorFrameListener }] ∧
    Freenect2Device.runOps { ptr := 0 } [.closeOp, .getSerialNumber] =
      [.ok { devicePtr := 0, op := .closeOp },
       .ok { devicePtr := 0, op := .getSerialNumber }] :=
  ⟨rfl, rfl⟩

/-- C1 (amended): `Freenect2Device` tracks no lifecycle state at all: every
method call, whatever the history, unconditionally forwards to the native
device pointer and never raises `StateError` or `UseAfterCloseError`. -/
theorem C1_no_lifecycle_tracking (d : Freenect2Device) (op : DeviceOp) :
    d.callMethod op = .ok { devicePtr := d.ptr, op := op } :=
  rfl

/-- C2: whenever `rgb` or `depth` is an owned buffer, or `undistored`,
`registered`, or a supplied `bigdepth` is not owned, `Registration.apply`
fails with the assertion error realizing the spec's `OwnershipError`, and
the native registration primitive is never invoked (the error result
carries no `NativeApplyCall`, so the outputs are untouched). -/
theorem C2_apply_ownership_precondition
    (rgb depth undistored registered : Frame) (enable_filter : Bool)
    (bigdepth : Option Frame)
    (h : rgb.take_ownership = true ∨ depth.take_ownership = true ∨
         undistored.take_ownership = false ∨ registered.take_ownership = false ∨
         ∃ b, bigdepth = some b ∧ b.take_ownership = false) :
    Registration.apply rgb depth undistored registered enable_filter bigdepth =
      .error .assertionError := by
  unfold Registration.apply
  rcases h with h | h | h | h | ⟨b, rfl, hb⟩
  · simp [h]
  · simp [h]
  · simp [h]
  · simp [h]
  · simp [hb]

/-- C2 witness: a concrete violating call (owned `rgb`) fails with the
assertion error. -/
theorem C2_witness :
    Registration.apply { ptr := some 1, take_ownership := true, frame_type := -1 }
      { ptr := some 2, take_ownership := false, frame_type := -1 }
      { ptr := some 3, take_ownership := true, frame_type := -1 }
      { ptr := some 4, take_ownership := true, frame_type := -1 }
      true none = .error .assertionError :=
  C2_apply_ownership_precondition _ _ _ _ _ _ (Or.inl rfl)

/-- C3: opening a device with a pipeline sets the pipeline object's
`owned_by_device` flag; from then on its destructor frees nothing, so
across both destructions (the pipeline object's `__dealloc__` and the
device teardown that now owns the native pipeline) the native pipeline
address is freed exactly once. -/
theorem C3_pipeline_ownership_transfer (p : PacketPipeline) (dev_ptr addr : Nat)
    (hp : p.pipeline = some addr) :
    ∃ p2, (Freenect2.openDeviceWith (some p) dev_ptr).2 = some p2 ∧
      p2.owned_by_device = true ∧
      CpuPacketPipeline.deallocFrees p2 = none ∧
      freesAt (CpuPacketPipeline.deallocFrees p2) addr +
        freesAt (deviceDestructorFrees p2.pipeline) addr = 1 := by
  refine ⟨{ p with owned_by_device := true }, rfl, rfl, ?_, ?_⟩ <;>
    simp [CpuPacketPipeline.deallocFrees, deviceDestructorFrees, freesAt, hp]

/-- C3 witness: a freshly constructed CPU pipeline at address 5, passed to
an open call for the device at address 7. -/
theorem C3_witness :
    ∃ p2, (Freenect2.openDeviceWith (some (CpuPacketPipeline.cinit 5)) 7).2 = some p2 ∧
      p2.owned_by_device = true ∧
      CpuPacketPipeline.deallocFrees p2 = none ∧
      freesAt (CpuPacketPipeline.deallocFrees p2) 5 +
        freesAt (deviceDestructorFrees p2.pipeline) 5 = 1 :=
  C3_pipeline_ownership_transfer (CpuPacketPipeline.cinit 5) 7 5 rfl

/-- C4: a frame constructed with explicit width/height/bytes_per_pixel is
owned and its whole lifetime (any live operations, then the one
`__dealloc__` the runtime runs) frees the native buffer exactly once; a
frame constructed without them is borrowed and its lifetime frees nothing;
and no frame's lifetime ever frees more than once. -/
theorem C4_owned_frame_freed_exactly_once
    (w hgt bpp : Nat) (ft : Int) (newPtr ac : Nat)
    (fOwned fBorrowed : Frame) (ops ops2 : List FrameOp)
    (hOwned : (Frame.cinit (some w) (some hgt) (some bpp) ft newPtr ac).1 = .ok fOwned)
    (hBorrowed : (Frame.cinit none none none ft newPtr ac).1 = .ok fBorrowed) :
    fOwned.lifecycleFrees ops = 1 ∧ fBorrowed.lifecycleFrees ops2 = 0 ∧
    ∀ (f : Frame) (ops3 : List FrameOp), f.lifecycleFrees ops3 ≤ 1 := by
  have hO : ({ ptr := some newPtr, take_ownership := true, frame_type := ft } : Frame)
      = fOwned := by
    simpa [Frame.cinit] using hOwned
  have hB : ({ ptr := none, take_ownership := false, frame_type := ft } : Frame)
      = fBorrowed := by
    simpa [Frame.cinit] using hBorrowed
  subst hO
  subst hB
  refine ⟨?_, ?_, ?_⟩
  · simp [Frame.lifecycleFrees, Frame.deallocFrees, sum_frameOp_frees]
  · simp [Frame.lifecycleFrees, Frame.deallocFrees, sum_frameOp_frees]
  · intro f ops3
    simp only [Frame.lifecycleFrees, Frame.deallocFrees, sum_frameOp_frees, Nat.zero_add]
    split <;> simp

/-- C4 witness: a 512x424x4 owned frame and a borrowed frame. -/
theorem C4_witness :
    ∃ fOwned fBorrowed : Frame,
      (Frame.cinit (some 512) (some 424) (some 4) (-1) 11 0).1 = .ok fOwned ∧
      (Frame.cinit none none none (-1) 11 0).1 = .ok fBorrowed ∧
      fOwned.lifecycleFrees [.propertyRead, .asarrayOp] = 1 ∧
      fBorrowed.lifecycleFrees [.astypeOp] = 0 :=
  ⟨{ ptr := some 11, take_ownership := true, frame_type := -1 },
   { ptr := none, take_ownership := false, frame_type := -1 },
   rfl, rfl,
   (C4_owned_frame_freed_exactly_once 512 424 4 (-1) 11 0 _ _
      [.propertyRead, .asarrayOp] [.astypeOp] rfl rfl).1,
   (C4_owned_frame_freed_exactly_once 512 424 4 (-1) 11 0 _ _
      [.propertyRead, .asarrayOp] [.astypeOp] rfl rfl).2.1⟩

/-- Evaluation of `__getitem__` at a recognized raw integer key: the key is
normalized to the native frame type and the map entry (read through
`operator[]`) is wrapped in a borrowed `Frame` without any presence
check. -/
lemma getitem_intKey_eval (m : FrameMapState) (t : FrameTypeE) :
    FrameMapState.getitem m (.intKey t.toInt) =
      .ok { ptr := m t.toNative, take_ownership := false, frame_type := t.toInt } := by
  cases t <;> rfl

/-- Evaluation of `__getitem__` at a canonical lowercase string key: the key
is normalized to the same native frame type and IntEnum value as the raw
integer key. -/
lemma getitem_strKey_eval (m : FrameMapState) (t : FrameTypeE) :
    FrameMapState.getitem m (.strKey t.canonicalStr) =
      .ok { ptr := m t.toNative, take_ownership := false, frame_type := t.toInt } := by
  cases t <;> rfl

/-- C5 counterexample: on a frame map whose every channel holds the native
frame at address 42, looking the Color channel up after `release` does not
raise: it returns (`ok`) a borrowed `Frame` wrapping the now-null entry,
refuting the claim that any lookup after release fails deterministically. -/
theorem C5_counterexample :
    FrameMapState.getitem (fun _ => some 42) (.intKey 1) =
      .ok { ptr := some 42, take_ownership := false, frame_type := 1 } ∧
    FrameMapState.getitem (SyncMultiFrameListener.release (fun _ => some 42)) (.intKey 1) =
      .ok { ptr := none, take_ownership := false, frame_type := 1 } :=
  ⟨rfl, rfl⟩

/-- C5 (amended): after `release` every entry of the frame map is indeed
invalidated (nulled), but `__getitem__` on a recognized channel still
succeeds, returning a `Frame` whose internal pointer is null rather than
raising an error. -/
theorem C5_release_invalidates_but_getitem_ok (m : FrameMapState)
    (k : LibFreenect2FrameType) (t : FrameTypeE) :
    SyncMultiFrameListener.release m k = none ∧
    FrameMapState.getitem (SyncMultiFrameListener.release m) (.intKey t.toInt) =
      .ok { ptr := none, take_ownership := false, frame_type := t.toInt } := by
  refine ⟨rfl, ?_⟩
  rw [getitem_intKey_eval]
  rfl

/-- C6 counterexample: on the empty frame map, looking up the recognized
Color channel (unset) raises nothing — it returns a `Frame` over the null
entry — and looking up the unrecognized integer key 3 raises `ValueError`,
not `KeyError`.  Both refute the claim that `__getitem__` fails with
`KeyError` whenever the channel is unset or the key unrecognized. -/
theorem C6_counterexample :
    FrameMapState.getitem (fun _ => none) (.intKey 1) =
      .ok { ptr := none, take_ownership := false, frame_type := 1 } ∧
    FrameMapState.getitem (fun _ => none) (.intKey 3) =
      .error (.valueError "Not supported") :=
  ⟨rfl, rfl⟩

/-- C6 (amended): `__getitem__` raises `ValueError("Not supported")` for an
unrecognized integer key and for an unrecognized string key, raises
`KeyError("")` only for a key of any other type, and for a recognized
channel key it never fails — even when the channel is unset it returns a
`Frame` wrapping the (null) entry. -/
theorem C6_getitem_error_behavior (m : FrameMapState) (n : Int) (s : String)
    (hn : n ≠ 1 ∧ n ≠ 2 ∧ n ≠ 4)
    (hs : pyLower s ≠ "color" ∧ pyLower s ≠ "ir" ∧ pyLower s ≠ "depth") :
    FrameMapState.getitem m (.intKey n) = .error (.valueError "Not supported") ∧
    FrameMapState.getitem m (.strKey s) = .error (.valueError "Not supported") ∧
    FrameMapState.getitem m .otherKey = .error (.keyError "") ∧
    ∀ t : FrameTypeE, ∃ fr, FrameMapState.getitem m (.intKey t.toInt) = .ok fr := by
  have he : intenum_to_frame_type n = .error (.valueError "Not supported") := by
    simp [intenum_to_frame_type, FrameTypeE.toInt, hn.1, hn.2.1, hn.2.2]
  have h1 : str_to_int_frame_type s = .error (.valueError "Not supported") := by
    simp [str_to_int_frame_type, hs.1, hs.2.1, hs.2.2]
  have h2 : str_to_frame_type s = .error (.valueError "Not supported") := by
    unfold str_to_frame_type
    rw [h1]
    rfl
  refine ⟨?_, ?_, rfl, fun t => ⟨_, getitem_intKey_eval m t⟩⟩
  · simp only [FrameMapState.getitem]
    rw [he]
    rfl
  · simp only [FrameMapState.getitem]
    rw [h2]
    rfl

/-- C6 witness: the amended behavior at the map holding address 9 on all
channels, with the unrecognized int 3 and unrecognized string "rgb". -/
theorem C6_witness :
    FrameMapState.getitem (fun _ => some 9) (.intKey 3) =
      .error (.valueError "Not supported") ∧
    FrameMapState.getitem (fun _ => some 9) (.strKey "rgb") =
      .error (.valueError "Not supported") ∧
    FrameMapState.getitem (fun _ => some 9) .otherKey = .error (.keyError "") ∧
    ∀ t : FrameTypeE, ∃ fr,
      FrameMapState.getitem (fun _ => some 9) (.intKey t.toInt) = .ok fr :=
  C6_getitem_error_behavior _ 3 "rgb" (by decide) (by decide)

/-- C7: on a map whose channel `t` is populated with the native frame at
address `p`, looking that channel up by its raw integer flag value (which is
also how a `FrameType` IntEnum member is dispatched, since
`isinstance(key, int)` holds for it) and by its canonical lowercase string
both return a borrowed `Frame` wrapping the same entry pointer `p` with the
same normalized `frame_type`. -/
theorem C7_key_normalization (m : FrameMapState) (t : FrameTypeE) (p : Nat)
    (hp : m t.toNative = some p) :
    FrameMapState.getitem m (.intKey t.toInt) =
      .ok { ptr := some p, take_ownership := false, frame_type := t.toInt } ∧
    FrameMapState.getitem m (.strKey t.canonicalStr) =
      .ok { ptr := some p, take_ownership := false, frame_type := t.toInt } := by
  rw [getitem_intKey_eval, getitem_strKey_eval, hp]
  exact ⟨rfl, rfl⟩

/-- C7 witness: a map with only the Color channel populated, at address 42. -/
theorem C7_witness :
    FrameMapState.getitem
        (fun k => match k with | .Color => some 42 | _ => none) (.intKey 1) =
      .ok { ptr := some 42, take_ownership := false, frame_type := 1 } ∧
    FrameMapState.getitem
        (fun k => match k with | .Color => some 42 | _ => none) (.strKey "color") =
      .ok { ptr := some 42, take_ownership := false, frame_type := 1 } :=
  C7_key_normalization _ .Color 42 rfl

/-- C8: `astype` with a dtype other than uint8/float32 fails with the
`ValueError` realizing the spec's `FormatError`, and `asarray` on a frame
whose stored `frame_type` is neither Color (1), Ir (2) nor Depth (4) —
including the unset value -1 — fails with an error. -/
theorem C8_format_errors (f : Frame) (nf : NativeFrame) (name : String)
    (h : f.frame_type ≠ 1 ∧ f.frame_type ≠ 2 ∧ f.frame_type ≠ 4) :
    f.astype nf (.otherType name) =
      .error (.valueError "np.uint8 or np.float32 is only supported") ∧
    ∃ e, f.asarray nf = .error e := by
  constructor
  · simp [Frame.astype]
  · by_cases h0 : f.frame_type < 0
    · exact ⟨.valueError "Cannnot determine type of raw data. Use astype instead.",
        by simp [Frame.asarray, h0]⟩
    · exact ⟨.assertionError,
        by simp [Frame.asarray, FrameTypeE.toInt, h0, h.1, h.2.1, h.2.2]⟩

/-- C8 witness: a borrowed frame with unset frame type (-1). -/
theorem C8_witness :
    (Frame.mk none false (-1)).astype
        { width := 1, height := 1, bytes_per_pixel := 1, dataAddr := 0 }
        (.otherType "int64") =
      .error (.valueError "np.uint8 or np.float32 is only supported") ∧
    ∃ e, (Frame.mk none false (-1)).asarray
        { width := 1, height := 1, bytes_per_pixel := 1, dataAddr := 0 } = .error e :=
  C8_format_errors _ _ _ (by decide)

/-- C9: a Color frame's `asarray` is the 3-d uint8 view of shape
height×width×4 over the frame's data, an Ir or Depth frame's `asarray` is
the 2-d float32 view of shape height×width, and `astype` at uint8/float32
produces exactly those views. -/
theorem C9_asarray_view_shapes (f : Frame) (nf : NativeFrame) :
    (f.frame_type = FrameTypeE.Color.toInt →
       f.asarray nf = .ok { ndim := 3, shape := [nf.height, nf.width, 4],
                            dtype := .uint8, dataAddr := nf.dataAddr } ∧
       f.asarray nf = f.astype nf .uint8) ∧
    (f.frame_type = FrameTypeE.Ir.toInt ∨ f.frame_type = FrameTypeE.Depth.toInt →
       f.asarray nf = .ok { ndim := 2, shape := [nf.height, nf.width],
                            dtype := .float32, dataAddr := nf.dataAddr } ∧
       f.asarray nf = f.astype nf .float32) ∧
    f.astype nf .uint8 = .ok { ndim := 3, shape := [nf.height, nf.width, 4],
                               dtype := .uint8, dataAddr := nf.dataAddr } ∧
    f.astype nf .float32 = .ok { ndim := 2, shape := [nf.height, nf.width],
                                 dtype := .float32, dataAddr := nf.dataAddr } := by
  refine ⟨?_, ?_, ?_, ?_⟩
  · intro hc
    constructor <;>
      simp [Frame.asarray, Frame.astype, Frame.uint8_data, FrameTypeE.toInt, hc]
  · intro hid
    rcases hid with h | h <;> constructor <;>
      simp [Frame.asarray, Frame.astype, Frame.float32_data, FrameTypeE.toInt, h]
  · simp [Frame.astype, Frame.uint8_data]
  · simp [Frame.astype, Frame.float32_data]

/-- C9 witness: a Color frame over a 1920x1080 native buffer and a Depth
frame over a 512x424 native buffer. -/
theorem C9_witness :
    (Frame.mk (some 5) false 1).asarray
        { width := 1920, height := 1080, bytes_per_pixel := 4, dataAddr := 77 } =
      .ok { ndim := 3, shape := [1080, 1920, 4], dtype := .uint8, dataAddr := 77 } ∧
    (Frame.mk (some 6) false 4).asarray
        { width := 512, height := 424, bytes_per_pixel := 4, dataAddr := 88 } =
      .ok { ndim := 2, shape := [424, 512], dtype := .float32, dataAddr := 88 } :=
  ⟨((C9_asarray_view_shapes (Frame.mk (some 5) false 1)
      { width := 1920, height := 1080, bytes_per_pixel := 4, dataAddr := 77 }).1 rfl).1,
   ((C9_asarray_view_shapes (Frame.mk (some 6) false 4)
      { width := 512, height := 424, bytes_per_pixel := 4, dataAddr := 88 }).2.1
      (Or.inr rfl)).1⟩

/-- C10: supplying a proper non-empty subset of width/height/bytes_per_pixel
makes `Frame.__cinit__` fail on its assertion with no native allocation
(the allocation count is unchanged), while supplying all three yields an
owning frame and supplying none yields a non-owning frame. -/
theorem C10_cinit_all_or_none (w hgt bpp : Option Nat) (wv hv bv : Nat)
    (ft : Int) (newPtr ac : Nat)
    (hnone : (w.isNone && hgt.isNone && bpp.isNone) = false)
    (hsome : (w.isSome && hgt.isSome && bpp.isSome) = false) :
    Frame.cinit w hgt bpp ft newPtr ac = (.error .assertionError, ac) ∧
    (∃ f, (Frame.cinit (some wv) (some hv) (some bv) ft newPtr ac).1 = .ok f ∧
       f.take_ownership = true) ∧
    ∃ f, (Frame.cinit none none none ft newPtr ac).1 = .ok f ∧
       f.take_ownership = false := by
  refine ⟨?_, ⟨_, rfl, rfl⟩, ⟨_, rfl, rfl⟩⟩
  simp [Frame.cinit, hnone, hsome]

/-- C10 witness: only `width` supplied. -/
theorem C10_witness :
    Frame.cinit (some 512) none none (-1) 11 3 = (.error .assertionError, 3) ∧
    (∃ f, (Frame.cinit (some 512) (some 424) (some 4) (-1) 11 3).1 = .ok f ∧
       f.take_ownership = true) ∧
    ∃ f, (Frame.cinit none none none (-1) 11 3).1 = .ok f ∧
       f.take_ownership = false :=
  C10_cinit_all_or_none (some 512) none none 512 424 4 (-1) 11 3 (by decide) (by decide)

end PyLibFreenect2
